import Mathlib

/-!
Shallow embedding of the inter-bank settlement core of the ove-bank-api
repository: the account model (src/models/account.model.js), the
transaction model (src/models/transaction.model.js), the signing and
verification helpers and the three transfer routes of
src/routes/transaction.routes.js.

Monetary amounts are JavaScript numbers in the source; they are modelled
here as exact rationals. Persisted MongoDB state is modelled as explicit
lists of account and transaction documents; each `await doc.save()` is a
functional update of that state. A `save` that rejects (the promise
fails) leaves the persisted state unchanged; where a claim quantifies
over step failures, the possible rejection of each save is made explicit
through a `FaultSpec` parameter.
-/

/-- The currency enumeration of both schemas. -/
inductive Currency
  | EUR
  | USD
  | GBP
deriving DecidableEq

/-- The transaction status enumeration of transaction.model.js. -/
inductive TxStatus
  | PENDING
  | IN_PROGRESS
  | COMPLETED
  | FAILED
deriving DecidableEq

/-- Errors thrown by the account model methods `debit` and `credit`. -/
inductive LedgerError
  | InvalidAmount
  | InsufficientFunds
deriving DecidableEq

/-- An account document (account.model.js schema); `user` is the owning
user ObjectId, modelled as a natural number. -/
structure Account where
  accountNumber : String
  user : Nat
  currency : Currency
  balance : ℚ
  isActive : Bool
deriving DecidableEq

/-- accountSchema.methods.hasSufficientFunds: `this.balance >= amount`. -/
def hasSufficientFunds (acc : Account) (amount : ℚ) : Bool :=
  acc.balance ≥ amount

/-- accountSchema.methods.credit: throws if `amount <= 0`, otherwise
adds `amount` to the balance and saves; the returned document is the
value the save persists. -/
def credit (acc : Account) (amount : ℚ) : Except LedgerError Account :=
  if amount ≤ 0 then .error .InvalidAmount
  else .ok { acc with balance := acc.balance + amount }

/-- accountSchema.methods.debit: throws if `amount <= 0`, throws if
`hasSufficientFunds` is false, otherwise subtracts `amount` from the
balance and saves. -/
def debit (acc : Account) (amount : ℚ) : Except LedgerError Account :=
  if amount ≤ 0 then .error .InvalidAmount
  else if ¬ hasSufficientFunds acc amount then .error .InsufficientFunds
  else .ok { acc with balance := acc.balance - amount }

/-- The canonical payload signed and dispatched to the central bank
(transaction.routes.js, `transactionPayload` and `payloadToVerify`). -/
structure Payload where
  transactionId : String
  fromBank : String
  fromAccount : String
  toBank : String
  toAccount : String
  amount : ℚ
  currency : Currency
  description : String
  timestamp : String
deriving DecidableEq

/-- An RS256 JWT as produced by `jwt.sign(payload, privateKey)`: it
carries the signed claims and is bound to the key pair that signed it.
Key pairs are modelled by a shared identifier: a private key and the
matching public key carry the same identifier string. -/
structure Jwt where
  claims : Payload
  key : String
deriving DecidableEq

/-- `jwt.verify(token, publicKey)`: succeeds exactly when the token was
signed with the private key matching `publicKey`. A malformed or
mismatched key matches no token. Note that `jwt.verify` checks only the
token itself; it does not compare the claims against anything. -/
def jwtVerify (token : Jwt) (publicKey : String) : Bool :=
  token.key == publicKey

/-- The process environment consumed by the route module: the bank
identifier (BANK_PREFIX), the key files (none when the file is missing
or unreadable) and the central-bank key directory (none when the fetch
fails or the bank is unknown). -/
structure Env where
  bankCode : String
  privateKey : Option String
  publicKey : Option String
  keyDirectory : String → Option String

/-- signTransaction (transaction.routes.js lines 16-29): reads the
private key and signs the payload with it; rethrows when the key file is
missing. -/
def signTransaction (env : Env) (payload : Payload) : Except String Jwt :=
  match env.privateKey with
  | none => .error "Private key not found"
  | some k => .ok { claims := payload, key := k }

/-- verifySignature (transaction.routes.js lines 32-61): for the local
bank, verifies the token against the local public key; otherwise fetches
the counterpart public key from the central bank and verifies against
it. Every throw (missing key file, failed fetch, `jwt.verify` failure)
is caught and turned into `false`. The `payload` parameter is accepted
but never used by the source. -/
def verifySignature (env : Env) (payload : Payload) (signature : Jwt)
    (fromBank : String) : Bool :=
  if fromBank == env.bankCode then
    match env.publicKey with
    | none => false
    | some pk => jwtVerify signature pk
  else
    match env.keyDirectory fromBank with
    | none => false
    | some pk => jwtVerify signature pk

/-- The key that verifySignature verifies against, when it resolves:
the local public key for the local bank, the central-bank directory
entry otherwise. -/
def resolveKey (env : Env) (fromBank : String) : Option String :=
  if fromBank == env.bankCode then env.publicKey
  else env.keyDirectory fromBank

/-- A transaction document (transaction.model.js schema). -/
structure Transaction where
  transactionId : String
  fromAccount : String
  toAccount : String
  fromBank : String
  toBank : String
  amount : ℚ
  currency : Currency
  description : String
  status : TxStatus
  errorCode : Option String
  errorMessage : Option String
  isInternal : Bool
  signature : Option Jwt
  initiatedBy : Nat
deriving DecidableEq

/-- transactionSchema.methods.updateStatus: sets status, errorCode and
errorMessage and saves the document. -/
def updateStatus (t : Transaction) (st : TxStatus)
    (ec em : Option String) : Transaction :=
  { t with status := st, errorCode := ec, errorMessage := em }

/-- transactionSchema.methods.markCompleted. -/
def markCompleted (t : Transaction) : Transaction :=
  updateStatus t .COMPLETED none none

/-- transactionSchema.methods.markFailed. -/
def markFailed (t : Transaction) (ec em : String) : Transaction :=
  updateStatus t .FAILED (some ec) (some em)

/-- transactionSchema.methods.markInProgress. -/
def markInProgress (t : Transaction) : Transaction :=
  updateStatus t .IN_PROGRESS none none

/-- The persisted MongoDB state the routes read and write: the account
collection and the transaction collection. -/
structure BankState where
  accounts : List Account
  transactions : List Transaction
deriving DecidableEq

/-- `Account.findOne({accountNumber})`. -/
def findAccount (s : BankState) (n : String) : Option Account :=
  s.accounts.find? (fun a => a.accountNumber == n)

/-- `Transaction.findOne({transactionId})`. -/
def findTransaction (s : BankState) (tid : String) : Option Transaction :=
  s.transactions.find? (fun t => t.transactionId == tid)

/-- Persisting a saved account document: the collection entry with the
same account number is overwritten with the document. -/
def updateAccount (l : List Account) (doc : Account) : List Account :=
  l.map (fun a => if a.accountNumber == doc.accountNumber then doc else a)

/-- Persisting a saved transaction document that is already in the
collection. -/
def updateTransaction (l : List Transaction) (doc : Transaction) :
    List Transaction :=
  l.map (fun t => if t.transactionId == doc.transactionId then doc else t)

/-- The body of POST /api/v1/transactions/internal after the
express-validator middleware has typed it. `userId` is `req.user._id`. -/
structure InternalRequest where
  fromAccount : String
  toAccount : String
  amount : ℚ
  description : String
  userId : Nat
deriving DecidableEq

/-- The response of the internal-transfer handler. `serverError` is the
`next(error)` path taken when an awaited step rejects. -/
inductive InternalResult
  | validationError
  | accountNotFound
  | forbidden
  | currencyMismatch
  | insufficientFunds
  | completed (tx : Transaction)
  | serverError
deriving DecidableEq

/-- Which of the three persistence points of the internal handler
succeed. Each flag is the outcome of one `await ... .save()`: `false`
models the save promise rejecting (the persisted state is then
unchanged by that save and the handler falls through to `next(error)`).
-/
structure FaultSpec where
  debitSaveOk : Bool
  creditSaveOk : Bool
  txSaveOk : Bool
deriving DecidableEq

/-- The express-validator checks of the internal route: both account
fields non-empty and `amount` between 0.01 and 1,000,000. -/
def internalRequestInvalid (r : InternalRequest) : Bool :=
  r.fromAccount == "" || r.toAccount == "" ||
    r.amount < mkRat 1 100 || 1000000 < r.amount

/-- The in-memory transaction document built by the internal handler
(status and transactionId take their schema defaults: PENDING and a
fresh uuid, here `newId`). -/
def internalRecord (env : Env) (newId : String) (r : InternalRequest)
    (sender recipient : Account) : Transaction :=
  { transactionId := newId
    fromAccount := sender.accountNumber
    toAccount := recipient.accountNumber
    fromBank := env.bankCode
    toBank := env.bankCode
    amount := r.amount
    currency := sender.currency
    description := r.description
    status := .PENDING
    errorCode := none
    errorMessage := none
    isInternal := true
    signature := none
    initiatedBy := r.userId }

/-- POST /api/v1/transactions/internal (transaction.routes.js lines
104-209): validation, then sender lookup, ownership, recipient lookup,
currency equality and funds checks, each rejecting with no mutation;
then a transaction document is built in memory, the sender is debited,
the recipient credited, and markCompleted persists the record — three
sequential saves with no surrounding transaction. -/
def internalTransfer (env : Env) (f : FaultSpec) (newId : String)
    (s : BankState) (r : InternalRequest) : InternalResult × BankState :=
  if internalRequestInvalid r then (.validationError, s)
  else
    match findAccount s r.fromAccount with
    | none => (.accountNotFound, s)
    | some sender =>
      if sender.user ≠ r.userId then (.forbidden, s)
      else
        match findAccount s r.toAccount with
        | none => (.accountNotFound, s)
        | some recipient =>
          if sender.currency ≠ recipient.currency then (.currencyMismatch, s)
          else if ¬ hasSufficientFunds sender r.amount then
            (.insufficientFunds, s)
          else
            let tx : Transaction := internalRecord env newId r sender recipient
            match debit sender r.amount with
            | .error _ => (.serverError, s)
            | .ok senderDoc =>
              if ¬ f.debitSaveOk then (.serverError, s)
              else
                let s1 : BankState :=
                  { s with accounts := updateAccount s.accounts senderDoc }
                match credit recipient r.amount with
                | .error _ => (.serverError, s1)
                | .ok recipientDoc =>
                  if ¬ f.creditSaveOk then (.serverError, s1)
                  else
                    let s2 : BankState :=
                      { s1 with
                        accounts := updateAccount s1.accounts recipientDoc }
                    let txDone := markCompleted tx
                    if ¬ f.txSaveOk then (.serverError, s2)
                    else
                      (.completed txDone,
                       { s2 with transactions := txDone :: s2.transactions })

/-- The body of POST /api/v1/transactions/external. -/
structure ExternalRequest where
  fromAccount : String
  toAccount : String
  toBank : String
  amount : ℚ
  currency : Currency
  description : String
  userId : Nat
deriving DecidableEq

/-- The central bank relay call outcome: HTTP success, an HTTP error
response carrying `{error: {code, message}}`, or the fetch rejecting
(network failure / timeout). -/
inductive RelayOutcome
  | ok
  | rejected (code message : String)
  | transportError
deriving DecidableEq

/-- The response of the external-transfer handler. `relayError` is the
error response forwarded from the central bank rejection; `serverError`
is the `next(error)` path. -/
inductive ExtResult
  | validationError
  | invalidDestination
  | accountNotFound
  | forbidden
  | currencyMismatch
  | insufficientFunds
  | relayError (code message : String)
  | success (tx : Transaction)
  | serverError
deriving DecidableEq

/-- Observable settlement events of the external flow, in execution
order: each persisted transaction status write, each persisted ledger
mutation, and the dispatch to the central bank. -/
inductive Event
  | savedTx (st : TxStatus)
  | didDebit (acc : String) (amt : ℚ)
  | didCredit (acc : String) (amt : ℚ)
  | dispatched
deriving DecidableEq

/-- The express-validator checks of the external route: the three
string fields non-empty and `amount` between 0.01 and 1,000,000 (the
currency enum check is carried by the `Currency` type). -/
def externalRequestInvalid (r : ExternalRequest) : Bool :=
  r.fromAccount == "" || r.toAccount == "" || r.toBank == "" ||
    r.amount < mkRat 1 100 || 1000000 < r.amount

/-- The transaction document built and saved (status PENDING) by the
external handler. -/
def externalRecord (env : Env) (newId : String) (r : ExternalRequest)
    (sender : Account) : Transaction :=
  { transactionId := newId
    fromAccount := sender.accountNumber
    toAccount := r.toAccount
    fromBank := env.bankCode
    toBank := r.toBank
    amount := r.amount
    currency := r.currency
    description := r.description
    status := .PENDING
    errorCode := none
    errorMessage := none
    isInternal := false
    signature := none
    initiatedBy := r.userId }

/-- The canonical payload the external handler builds, signs and
dispatches; `ts` is the fresh `new Date().toISOString()`. -/
def externalPayload (env : Env) (newId ts : String) (r : ExternalRequest)
    (sender : Account) : Payload :=
  { transactionId := newId
    fromBank := env.bankCode
    fromAccount := sender.accountNumber
    toBank := r.toBank
    toAccount := r.toAccount
    amount := r.amount
    currency := r.currency
    description := r.description
    timestamp := ts }

/-- POST /api/v1/transactions/external (transaction.routes.js lines
260-425): validation and the same-bank, ownership, currency and funds
checks reject with no mutation; then, in source order: the transaction
is saved (status PENDING), the canonical payload is built with the
fresh timestamp `ts` and signed, the signature is attached and
markInProgress saved, the sender is debited, and the payload is
dispatched to the central bank. A rejection response credits the sender
back and marks the record FAILED with the relay error; a transport
failure credits back and marks FAILED with CENTRAL_BANK_ERROR, then
rethrows. The returned trace lists the settlement events in order. -/
def externalTransfer (env : Env) (newId ts : String)
    (relay : RelayOutcome) (s : BankState) (r : ExternalRequest) :
    ExtResult × BankState × List Event :=
  if externalRequestInvalid r then (.validationError, s, [])
  else if r.toBank == env.bankCode then (.invalidDestination, s, [])
  else
    match findAccount s r.fromAccount with
    | none => (.accountNotFound, s, [])
    | some sender =>
      if sender.user ≠ r.userId then (.forbidden, s, [])
      else if sender.currency ≠ r.currency then (.currencyMismatch, s, [])
      else if ¬ hasSufficientFunds sender r.amount then
        (.insufficientFunds, s, [])
      else
        let tx : Transaction := externalRecord env newId r sender
        let s1 : BankState := { s with transactions := tx :: s.transactions }
        let payload : Payload := externalPayload env newId ts r sender
        match signTransaction env payload with
        | .error _ => (.serverError, s1, [.savedTx .PENDING])
        | .ok sig =>
          let tx2 := markInProgress { tx with signature := some sig }
          let s2 : BankState :=
            { s1 with transactions := updateTransaction s1.transactions tx2 }
          match debit sender r.amount with
          | .error _ =>
            (.serverError, s2, [.savedTx .PENDING, .savedTx .IN_PROGRESS])
          | .ok senderDoc =>
            let s3 : BankState :=
              { s2 with accounts := updateAccount s2.accounts senderDoc }
            let tr : List Event :=
              [.savedTx .PENDING, .savedTx .IN_PROGRESS,
               .didDebit sender.accountNumber r.amount, .dispatched]
            match relay with
            | .ok => (.success tx2, s3, tr)
            | .rejected c m =>
              match credit senderDoc r.amount with
              | .error _ => (.serverError, s3, tr)
              | .ok senderBack =>
                let s4 : BankState :=
                  { s3 with accounts := updateAccount s3.accounts senderBack }
                let txF := markFailed tx2 c m
                (.relayError c m,
                 { s4 with
                   transactions := updateTransaction s4.transactions txF },
                 tr ++ [.didCredit sender.accountNumber r.amount,
                        .savedTx .FAILED])
            | .transportError =>
              match credit senderDoc r.amount with
              | .error _ => (.serverError, s3, tr)
              | .ok senderBack =>
                let s4 : BankState :=
                  { s3 with accounts := updateAccount s3.accounts senderBack }
                let txF := markFailed tx2 "CENTRAL_BANK_ERROR"
                  "Failed to communicate with central bank"
                (.serverError,
                 { s4 with
                   transactions := updateTransaction s4.transactions txF },
                 tr ++ [.didCredit sender.accountNumber r.amount,
                        .savedTx .FAILED])

/-- The body of POST /api/v1/transactions/incoming: the payload fields
plus the signature, exactly as the relay delivers them. This route has
no express-validator middleware and no authentication. -/
structure IncomingRequest where
  transactionId : String
  fromBank : String
  fromAccount : String
  toBank : String
  toAccount : String
  amount : ℚ
  currency : Currency
  description : String
  timestamp : String
  signature : Jwt
deriving DecidableEq

/-- The response of the incoming handler; every constructor carries the
transactionId echoed in the JSON body. `serverError` is the handler's
own catch block (HTTP 500 TRANSACTION_PROCESSING_ERROR). -/
inductive IncomingResult
  | invalidDestination (tid : String)
  | alreadyProcessed (tid : String) (st : TxStatus)
  | invalidSignature (tid : String)
  | accountNotFound (tid : String)
  | currencyMismatch (tid : String)
  | processed (tid : String)
  | serverError (tid : String)
deriving DecidableEq

/-- The payload rebuilt by the incoming handler for verification. -/
def incomingPayload (r : IncomingRequest) : Payload :=
  { transactionId := r.transactionId
    fromBank := r.fromBank
    fromAccount := r.fromAccount
    toBank := r.toBank
    toAccount := r.toAccount
    amount := r.amount
    currency := r.currency
    description := r.description
    timestamp := r.timestamp }

/-- The transaction document built by the incoming handler; the
recipient user is recorded as initiator. -/
def incomingRecord (r : IncomingRequest) (recipient : Account) :
    Transaction :=
  { transactionId := r.transactionId
    fromAccount := r.fromAccount
    toAccount := r.toAccount
    fromBank := r.fromBank
    toBank := r.toBank
    amount := r.amount
    currency := r.currency
    description := r.description
    status := .PENDING
    errorCode := none
    errorMessage := none
    isInternal := false
    signature := some r.signature
    initiatedBy := recipient.user }

/-- The transaction schema validation mongoose runs when a transaction
document is first saved (transaction.model.js): `required` string
fields must be non-empty and `amount` must lie within [0.01, 1000000]
(the currency and status enums are carried by their types here). A
document failing it makes the `save()` promise reject. -/
def transactionDocInvalid (t : Transaction) : Bool :=
  t.transactionId == "" || t.fromAccount == "" || t.toAccount == "" ||
    t.fromBank == "" || t.toBank == "" ||
    t.amount < mkRat 1 100 || 1000000 < t.amount

/-- POST /api/v1/transactions/incoming (transaction.routes.js lines
459-576): rejects when the destination bank is not this bank; returns
the stored status unchanged when the transactionId already exists;
rejects on signature verification failure, unknown destination account
or currency mismatch — all without touching any state; otherwise
credits the destination account and then persists the record via
markCompleted. This route has no express-validator middleware, so the
only range check on it is the transaction schema validation run at
markCompleted's save, after the credit has already been persisted: a
throw there — or in `credit` on a non-positive amount — is answered by
the catch block with HTTP 500, leaving whatever was already saved in
place. -/
def incomingTransfer (env : Env) (s : BankState) (r : IncomingRequest) :
    IncomingResult × BankState :=
  if ¬ (r.toBank == env.bankCode) then (.invalidDestination r.transactionId, s)
  else
    match findTransaction s r.transactionId with
    | some t => (.alreadyProcessed r.transactionId t.status, s)
    | none =>
      if ¬ verifySignature env (incomingPayload r) r.signature r.fromBank then
        (.invalidSignature r.transactionId, s)
      else
        match findAccount s r.toAccount with
        | none => (.accountNotFound r.transactionId, s)
        | some recipient =>
          if recipient.currency ≠ r.currency then
            (.currencyMismatch r.transactionId, s)
          else
            let tx : Transaction := incomingRecord r recipient
            match credit recipient r.amount with
            | .error _ => (.serverError r.transactionId, s)
            | .ok recipientDoc =>
              let s1 : BankState :=
                { s with accounts := updateAccount s.accounts recipientDoc }
              let txDone := markCompleted tx
              if transactionDocInvalid txDone then
                (.serverError r.transactionId, s1)
              else
                (.processed r.transactionId,
                 { s1 with transactions := txDone :: s1.transactions })

/-- Setting the `isActive` flag of an account document. -/
def setActive (b : Bool) (a : Account) : Account :=
  { a with isActive := b }

/-- Setting the `isActive` flag of every account in the state. -/
def mapActive (b : Bool) (s : BankState) : BankState :=
  { s with accounts := s.accounts.map (setActive b) }

/-- All persisted balances are non-negative. -/
def nonNegState (s : BankState) : Prop :=
  ∀ a ∈ s.accounts, 0 ≤ a.balance

/-- First event satisfying a predicate comes strictly before the first
event satisfying another: the way the ordering claims on the external
flow are read off its trace. -/
def eventBefore (p q : Event → Bool) (tr : List Event) : Prop :=
  tr.findIdx p < tr.findIdx q ∧ (tr.filter q).length ≠ 0

/-- Recognizes a persisted debit event. -/
def isDebitEvent : Event → Bool
  | .didDebit _ _ => true
  | _ => false

/-- Recognizes a persisted credit event. -/
def isCreditEvent : Event → Bool
  | .didCredit _ _ => true
  | _ => false

/-- Recognizes the IN_PROGRESS status write. -/
def isInProgressSave : Event → Bool
  | .savedTx .IN_PROGRESS => true
  | _ => false

/-- Recognizes the FAILED status write. -/
def isFailedSave : Event → Bool
  | .savedTx .FAILED => true
  | _ => false

/-- A concrete environment: this bank is OVE with a matching RSA key
pair on disk, and the central bank directory knows bank ABC. -/
def envC : Env :=
  { bankCode := "OVE"
    privateKey := some "OVEKEY"
    publicKey := some "OVEKEY"
    keyDirectory := fun b => if b == "ABC" then some "ABCKEY" else none }

/-- A concrete account with balance 100. -/
def accA : Account :=
  { accountNumber := "OVE-11111111", user := 1, currency := .EUR,
    balance := 100, isActive := true }

/-- A concrete account with balance 0, owned by another user. -/
def accB : Account :=
  { accountNumber := "OVE-22222222", user := 2, currency := .EUR,
    balance := 0, isActive := true }

/-- A concrete bank state holding the two accounts and no transactions. -/
def sC : BankState := { accounts := [accA, accB], transactions := [] }

/-- A concrete internal transfer request of 50 from accA to accB. -/
def rC : InternalRequest :=
  { fromAccount := "OVE-11111111", toAccount := "OVE-22222222",
    amount := 50, description := "", userId := 1 }

/-- A concrete external transfer request of 50 from accA to bank ABC. -/
def rE : ExternalRequest :=
  { fromAccount := "OVE-11111111", toAccount := "ABC-33333333",
    toBank := "ABC", amount := 50, currency := .EUR, description := "",
    userId := 1 }

/-- A concrete canonical payload. -/
def pC : Payload :=
  { transactionId := "tx-1", fromBank := "OVE",
    fromAccount := "OVE-11111111", toBank := "OVE",
    toAccount := "OVE-22222222", amount := 100, currency := .EUR,
    description := "", timestamp := "2026-01-01T00:00:00Z" }

/-- The signature produced over `pC` by this bank's private key. -/
def sigC : Jwt := { claims := pC, key := "OVEKEY" }

/-- The payload of the concrete incoming request below. -/
def pI : Payload :=
  { transactionId := "tx-9", fromBank := "ABC",
    fromAccount := "ABC-33333333", toBank := "OVE",
    toAccount := "OVE-22222222", amount := 25, currency := .EUR,
    description := "", timestamp := "2026-01-02T00:00:00Z" }

/-- A concrete incoming request from bank ABC crediting accB with 25,
signed with the ABC private key. -/
def rI : IncomingRequest :=
  { transactionId := "tx-9", fromBank := "ABC",
    fromAccount := "ABC-33333333", toBank := "OVE",
    toAccount := "OVE-22222222", amount := 25, currency := .EUR,
    description := "", timestamp := "2026-01-02T00:00:00Z",
    signature := { claims := pI, key := "ABCKEY" } }

/-- The state after the concrete incoming request `rI` has been
accepted: accB credited with 25 and the record stored COMPLETED. -/
def sI1 : BankState :=
  { accounts := [accA, { accB with balance := 25 }],
    transactions := [markCompleted (incomingRecord rI accB)] }

/-- The concrete incoming request `rI` with its signature tampered: the
token is not one signed by the ABC key pair. -/
def rIbad : IncomingRequest :=
  { rI with signature := { claims := pI, key := "WRONGKEY" } }

/-- The state left behind when the internal transfer rC has persisted
its debit and then the credit save fails: accA debited by 50, accB
untouched, no transaction record. -/
def sC2 : BankState :=
  { accounts := [{ accA with balance := 50 }, accB], transactions := [] }

/-- A validly signed incoming request for 2,000,000 — above the
transaction schema maximum of 1,000,000, which nothing on the
validator-less incoming route checks before the record save. -/
def rBig : IncomingRequest :=
  { rI with transactionId := "tx-big", amount := 2000000 }

/-- The state the request rBig leaves behind: accB credited with
2,000,000 and no transaction record stored. -/
def sBig : BankState :=
  { accounts := [accA, { accB with balance := 2000000 }],
    transactions := [] }

/-! ## Basic lemmas about the ledger operations -/

theorem hasSufficientFunds_iff (a : Account) (amt : ℚ) :
    hasSufficientFunds a amt = true ↔ amt ≤ a.balance := by
  simp [hasSufficientFunds, ge_iff_le]

theorem debit_eq_ok (a : Account) (amt : ℚ) (h1 : 0 < amt)
    (h2 : amt ≤ a.balance) :
    debit a amt = .ok { a with balance := a.balance - amt } := by
  simp [debit, hasSufficientFunds, not_le.mpr h1, h2]

theorem credit_eq_ok (a : Account) (amt : ℚ) (h1 : 0 < amt) :
    credit a amt = .ok { a with balance := a.balance + amt } := by
  simp [credit, not_le.mpr h1]

theorem debit_ok_inv (a d : Account) (amt : ℚ)
    (h : debit a amt = .ok d) :
    0 < amt ∧ amt ≤ a.balance ∧ d = { a with balance := a.balance - amt } := by
  by_cases h1 : amt ≤ 0
  · simp [debit, h1] at h
  · push_neg at h1
    by_cases h2 : amt ≤ a.balance
    · refine ⟨h1, h2, ?_⟩
      rw [debit_eq_ok a amt h1 h2] at h
      exact (Except.ok.inj h).symm
    · simp [debit, hasSufficientFunds, not_le.mpr h1, h2] at h

theorem credit_ok_inv (a d : Account) (amt : ℚ)
    (h : credit a amt = .ok d) :
    0 < amt ∧ d = { a with balance := a.balance + amt } := by
  by_cases h1 : amt ≤ 0
  · simp [credit, h1] at h
  · push_neg at h1
    refine ⟨h1, ?_⟩
    rw [credit_eq_ok a amt h1] at h
    exact (Except.ok.inj h).symm

/-- C1: the claim asserts that `verify(p, sign(p), selfBankId)` is true
and that mutating any single field of the payload before verification
makes it false. The first half holds, but the second is false in the
code: `verifySignature` never consults its `payload` argument —
`jwt.verify(signature, publicKey)` only checks the integrity of the
token itself — so a payload whose amount was changed from 100 to 200
still verifies as true against the unchanged original signature. -/
theorem claim_C1_tamper_undetected :
    signTransaction envC pC = .ok sigC ∧
    verifySignature envC pC sigC "OVE" = true ∧
    ({ pC with amount := 200 } : Payload) ≠ pC ∧
    verifySignature envC { pC with amount := 200 } sigC "OVE" = true := by
  refine ⟨rfl, rfl, ?_, rfl⟩
  intro h
  have := congrArg Payload.amount h
  simp [pC] at this

/-- C9: verification is total and fail-closed. `verifySignature` is a
total boolean function (the source wraps every throw in a catch that
returns false); it returns true exactly when the key it verifies
against resolves (local public key for the local bank, central-bank
directory otherwise) and the cryptographic check passes, so a failed
key lookup or a cryptographic mismatch always yields false. -/
theorem claim_C9_verify_fail_closed (env : Env) (p : Payload) (sig : Jwt)
    (b : String) :
    (verifySignature env p sig b = true ↔
      ∃ k, resolveKey env b = some k ∧ jwtVerify sig k = true) ∧
    (resolveKey env b = none → verifySignature env p sig b = false) ∧
    (∀ k, resolveKey env b = some k → jwtVerify sig k = false →
      verifySignature env p sig b = false) := by
  unfold verifySignature resolveKey
  by_cases hb : b == env.bankCode
  · simp only [hb, if_true]
    cases hpk : env.publicKey with
    | none => simp
    | some pk => simp
  · simp only [hb, Bool.false_eq_true, if_false]
    cases hk : env.keyDirectory b with
    | none => simp
    | some pk => simp

/-- Witness for C9 at a concrete input: the OVE environment has no
directory entry for bank XYZ, so verification of any signature claiming
origin XYZ fails closed. -/
theorem claim_C9_witness : verifySignature envC pC sigC "XYZ" = false :=
  (claim_C9_verify_fail_closed envC pC sigC "XYZ").2.1 rfl

/-- C6: the debit contract. A non-positive amount fails with the
invalid-amount error; an amount exceeding the balance fails with the
insufficient-funds error; otherwise the balance is decremented by
exactly the amount and the resulting document is what the save
persists; debiting exactly the full balance succeeds and leaves 0. -/
theorem claim_C6_debit_contract (a : Account) (amt : ℚ) :
    (amt ≤ 0 → debit a amt = .error .InvalidAmount) ∧
    (0 < amt → a.balance < amt → debit a amt = .error .InsufficientFunds) ∧
    (0 < amt → amt ≤ a.balance →
      debit a amt = .ok { a with balance := a.balance - amt }) ∧
    (0 < a.balance → debit a a.balance = .ok { a with balance := 0 }) := by
  refine ⟨?_, ?_, ?_, ?_⟩
  · intro h
    simp [debit, h]
  · intro h1 h2
    simp [debit, hasSufficientFunds, not_le.mpr h1, not_le.mpr h2]
  · intro h1 h2
    exact debit_eq_ok a amt h1 h2
  · intro h
    have := debit_eq_ok a a.balance h le_rfl
    simpa using this

/-- Witness for C6 at a concrete input: debiting the full balance 100
of accA succeeds and leaves balance 0. -/
theorem claim_C6_witness :
    debit accA accA.balance = .ok { accA with balance := 0 } :=
  (claim_C6_debit_contract accA 100).2.2.2 (by norm_num [accA])

/-! ## Non-negativity preservation -/

theorem findAccount_mem (s : BankState) (n : String) (a : Account)
    (h : findAccount s n = some a) : a ∈ s.accounts :=
  List.mem_of_find?_eq_some h

theorem updateAccount_nonneg (l : List Account) (doc : Account)
    (hl : ∀ a ∈ l, 0 ≤ a.balance) (hd : 0 ≤ doc.balance) :
    ∀ a ∈ updateAccount l doc, 0 ≤ a.balance := by
  intro a ha
  simp only [updateAccount, List.mem_map] at ha
  obtain ⟨x, hx, hxa⟩ := ha
  by_cases hn : x.accountNumber == doc.accountNumber
  · simp only [hn, if_true] at hxa
    exact hxa ▸ hd
  · simp only [hn, Bool.false_eq_true, if_false] at hxa
    exact hxa ▸ hl x hx

theorem internalTransfer_nonneg (env : Env) (f : FaultSpec) (newId : String)
    (s : BankState) (r : InternalRequest) (hs : nonNegState s) :
    nonNegState (internalTransfer env f newId s r).2 := by
  unfold internalTransfer
  split
  · exact hs
  split
  · exact hs
  rename_i sender hsender
  split
  · exact hs
  split
  · exact hs
  rename_i recipient hrecipient
  split
  · exact hs
  split
  · exact hs
  split
  · exact hs
  rename_i senderDoc hdebit
  obtain ⟨hpos, hle, hdoc⟩ := debit_ok_inv _ _ _ hdebit
  have hsd : 0 ≤ senderDoc.balance := by
    rw [hdoc]; simpa using sub_nonneg.mpr hle
  have hrb : 0 ≤ recipient.balance :=
    hs recipient (findAccount_mem _ _ _ hrecipient)
  split
  · exact hs
  split
  · exact fun a ha => updateAccount_nonneg _ _ hs hsd a ha
  rename_i recipientDoc hcredit
  obtain ⟨hcpos, hcdoc⟩ := credit_ok_inv _ _ _ hcredit
  have hrd : 0 ≤ recipientDoc.balance := by
    rw [hcdoc]; simpa using add_nonneg hrb hcpos.le
  split
  · exact fun a ha => updateAccount_nonneg _ _ hs hsd a ha
  split
  · exact fun a ha =>
      updateAccount_nonneg _ _ (updateAccount_nonneg _ _ hs hsd) hrd a ha
  exact fun a ha =>
    updateAccount_nonneg _ _ (updateAccount_nonneg _ _ hs hsd) hrd a ha

theorem externalTransfer_nonneg (env : Env) (newId ts : String)
    (relay : RelayOutcome) (s : BankState) (r : ExternalRequest)
    (hs : nonNegState s) :
    nonNegState (externalTransfer env newId ts relay s r).2.1 := by
  unfold externalTransfer
  split
  · exact hs
  split
  · exact hs
  split
  · exact hs
  rename_i sender hsender
  split
  · exact hs
  split
  · exact hs
  split
  · exact hs
  dsimp only
  cases hsig : signTransaction env (externalPayload env newId ts r sender) with
  | error e => exact hs
  | ok sig =>
    cases hdebit : debit sender r.amount with
    | error e => exact hs
    | ok senderDoc =>
      obtain ⟨hpos, hle, hdoc⟩ := debit_ok_inv _ _ _ hdebit
      have hsd : 0 ≤ senderDoc.balance := by
        rw [hdoc]; simpa using sub_nonneg.mpr hle
      cases relay with
      | ok =>
        dsimp only
        exact fun a ha => updateAccount_nonneg _ _ hs hsd a ha
      | rejected c m =>
        dsimp only
        split
        · exact fun a ha => updateAccount_nonneg _ _ hs hsd a ha
        rename_i senderBack hcredit
        obtain ⟨hcpos, hcdoc⟩ := credit_ok_inv _ _ _ hcredit
        have hsb : 0 ≤ senderBack.balance := by
          rw [hcdoc]; simpa using add_nonneg hsd hcpos.le
        exact fun a ha =>
          updateAccount_nonneg _ _ (updateAccount_nonneg _ _ hs hsd) hsb a ha
      | transportError =>
        dsimp only
        split
        · exact fun a ha => updateAccount_nonneg _ _ hs hsd a ha
        rename_i senderBack hcredit
        obtain ⟨hcpos, hcdoc⟩ := credit_ok_inv _ _ _ hcredit
        have hsb : 0 ≤ senderBack.balance := by
          rw [hcdoc]; simpa using add_nonneg hsd hcpos.le
        exact fun a ha =>
          updateAccount_nonneg _ _ (updateAccount_nonneg _ _ hs hsd) hsb a ha

theorem incomingTransfer_nonneg (env : Env) (s : BankState)
    (r : IncomingRequest) (hs : nonNegState s) :
    nonNegState (incomingTransfer env s r).2 := by
  unfold incomingTransfer
  split
  · exact hs
  split
  · exact hs
  split
  · exact hs
  split
  · exact hs
  rename_i recipient hrecipient
  split
  · exact hs
  split
  · exact hs
  rename_i recipientDoc hcredit
  obtain ⟨hcpos, hcdoc⟩ := credit_ok_inv _ _ _ hcredit
  have hrb : 0 ≤ recipient.balance :=
    hs recipient (findAccount_mem _ _ _ hrecipient)
  have hrd : 0 ≤ recipientDoc.balance := by
    rw [hcdoc]; simpa using add_nonneg hrb hcpos.le
  by_cases hV : transactionDocInvalid
      (markCompleted (incomingRecord r recipient)) = true
  · simp only [hV, if_true]
    exact fun a ha => updateAccount_nonneg _ _ hs hrd a ha
  · simp only [hV, if_false, Bool.false_eq_true]
    exact fun a ha => updateAccount_nonneg _ _ hs hrd a ha

/-- C7: the non-negative balance invariant. A successful debit leaves a
non-negative balance (the funds check guarantees it); a successful
credit of a non-negative account stays non-negative; a failed operation
returns an error and persists nothing; and every transfer route
(internal with any combination of save failures, external with any
relay outcome, incoming) maps a state whose balances are all
non-negative to a state whose balances are all non-negative. -/
theorem claim_C7_nonneg_invariant (env : Env) (f : FaultSpec)
    (newId ts : String) (relay : RelayOutcome) (s : BankState)
    (a : Account) (amt : ℚ) (r1 : InternalRequest) (r2 : ExternalRequest)
    (r3 : IncomingRequest) :
    (∀ d, debit a amt = .ok d → 0 ≤ d.balance) ∧
    (0 ≤ a.balance → ∀ d, credit a amt = .ok d → 0 ≤ d.balance) ∧
    (nonNegState s →
      nonNegState (internalTransfer env f newId s r1).2 ∧
      nonNegState (externalTransfer env newId ts relay s r2).2.1 ∧
      nonNegState (incomingTransfer env s r3).2) := by
  refine ⟨?_, ?_, ?_⟩
  · intro d hd
    obtain ⟨hpos, hle, hdoc⟩ := debit_ok_inv _ _ _ hd
    rw [hdoc]; simpa using sub_nonneg.mpr hle
  · intro ha d hd
    obtain ⟨hpos, hdoc⟩ := credit_ok_inv _ _ _ hd
    rw [hdoc]; simpa using add_nonneg ha hpos.le
  · intro hs
    exact ⟨internalTransfer_nonneg env f newId s r1 hs,
      externalTransfer_nonneg env newId ts relay s r2 hs,
      incomingTransfer_nonneg env s r3 hs⟩

/-- Witness for C7 at a concrete input: the all-success internal
transfer of 50 from accA to accB preserves non-negativity of the
concrete state. -/
theorem claim_C7_witness :
    nonNegState (internalTransfer envC ⟨true, true, true⟩ "t1" sC rC).2 :=
  ((claim_C7_nonneg_invariant envC ⟨true, true, true⟩ "t1" "TS" .ok sC
    accA 50 rC rE rI).2.2 (by
      intro a ha
      simp only [sC, accA, accB, List.mem_cons, List.not_mem_nil, or_false] at ha
      rcases ha with h | h <;> rw [h] <;> norm_num)).1

/-! ## Characterization of the incoming route -/

theorem find_updateAccount (l : List Account) (doc : Account) (n : String)
    (a : Account) (h : l.find? (fun x => x.accountNumber == n) = some a)
    (hn : doc.accountNumber = a.accountNumber) :
    (updateAccount l doc).find? (fun x => x.accountNumber == n) = some doc := by
  induction l with
  | nil => simp at h
  | cons y ys ih =>
    rw [List.find?_cons] at h
    cases hy : y.accountNumber == n with
    | true =>
      rw [hy] at h
      simp only at h
      have hay : y = a := by simpa using h
      have hdy : doc.accountNumber = y.accountNumber := by rw [hn, ← hay]
      have h1 : (y.accountNumber == doc.accountNumber) = true := by
        rw [hdy]; simp
      have h2 : (doc.accountNumber == n) = true := by
        rw [hdy]; exact hy
      have hdy2 : y.accountNumber = doc.accountNumber := hdy.symm
      simp [updateAccount, List.find?_cons, hdy2, h2]
    | false =>
      rw [hy] at h
      simp only at h
      have han : (a.accountNumber == n) = true := by
        have := List.find?_some h
        simpa using this
      have hyd : (y.accountNumber == doc.accountNumber) = false := by
        by_contra hc
        rw [Bool.not_eq_false] at hc
        have h1 : y.accountNumber = doc.accountNumber := by simpa using hc
        have h2 : a.accountNumber = n := by simpa using han
        rw [h1, hn, h2] at hy
        simp at hy
      have hgoal := ih h
      simp only [updateAccount, List.map_cons, hyd, List.find?_cons]
      simp only [Bool.false_eq_true, if_false, hy]
      simpa [updateAccount] using hgoal

theorem markCompleted_status (t : Transaction) :
    (markCompleted t).status = .COMPLETED := rfl

theorem incomingRecord_tid (r : IncomingRequest) (recipient : Account) :
    (markCompleted (incomingRecord r recipient)).transactionId =
      r.transactionId := rfl

/-- Inversion of an accepted incoming transfer: the processed result is
only reachable when every check passed, and it fully determines the
resulting state. -/
theorem incomingTransfer_processed_inv (env : Env) (s s1 : BankState)
    (r : IncomingRequest) (tid : String)
    (h : incomingTransfer env s r = (.processed tid, s1)) :
    tid = r.transactionId ∧
    (r.toBank == env.bankCode) = true ∧
    findTransaction s r.transactionId = none ∧
    verifySignature env (incomingPayload r) r.signature r.fromBank = true ∧
    ∃ recipient, findAccount s r.toAccount = some recipient ∧
      recipient.currency = r.currency ∧ 0 < r.amount ∧
      transactionDocInvalid (markCompleted (incomingRecord r recipient)) =
        false ∧
      s1 = { accounts := updateAccount s.accounts
               { recipient with balance := recipient.balance + r.amount },
             transactions :=
               markCompleted (incomingRecord r recipient) :: s.transactions } := by
  unfold incomingTransfer at h
  split at h
  · simp at h
  rename_i htb
  rw [not_not] at htb
  split at h
  · simp at h
  rename_i hdup
  split at h
  · simp at h
  rename_i hsig
  rw [not_not] at hsig
  split at h
  · simp at h
  rename_i recipient hrec
  split at h
  · simp at h
  rename_i hcur
  push_neg at hcur
  split at h
  · simp at h
  rename_i recipientDoc hcredit
  obtain ⟨hpos, hdoc⟩ := credit_ok_inv _ _ _ hcredit
  by_cases hV : transactionDocInvalid
      (markCompleted (incomingRecord r recipient)) = true
  · simp only [hV, if_true] at h
    simp at h
  have hvalid : transactionDocInvalid
      (markCompleted (incomingRecord r recipient)) = false :=
    Bool.not_eq_true _ ▸ hV
  simp only [hV, if_false, Bool.false_eq_true] at h
  obtain ⟨h1, h2⟩ := Prod.mk.injEq .. ▸ h
  refine ⟨(IncomingResult.processed.injEq .. ▸ h1).symm, htb, hdup, hsig,
    recipient, hrec, hcur, hpos, hvalid, ?_⟩
  rw [← h2, hdoc]

/-- Every run of the incoming route reports the request as processed,
answers the 500 error path, or leaves the persisted state untouched:
only an accepted credit (possibly followed by a failed record save) can
change state. -/
theorem incomingTransfer_state_or (env : Env) (s : BankState)
    (r : IncomingRequest) :
    (incomingTransfer env s r).1 = .processed r.transactionId ∨
      (incomingTransfer env s r).1 = .serverError r.transactionId ∨
      (incomingTransfer env s r).2 = s := by
  unfold incomingTransfer
  dsimp only
  repeat' split
  all_goals first
    | exact Or.inl rfl
    | exact Or.inr (Or.inl rfl)
    | exact Or.inr (Or.inr rfl)

/-- Every transaction record in the state left by the incoming route
was either already stored or was stored with status COMPLETED: the
route never writes any other status, in particular never FAILED. -/
theorem incomingTransfer_record_completed (env : Env) (s : BankState)
    (r : IncomingRequest) :
    ∀ t ∈ (incomingTransfer env s r).2.transactions,
      t ∈ s.transactions ∨ t.status = .COMPLETED := by
  unfold incomingTransfer
  dsimp only
  repeat' split
  all_goals intro t ht
  all_goals first
    | exact Or.inl ht
    | (simp only [List.mem_cons] at ht
       rcases ht with h | h
       · exact Or.inr (h ▸ rfl)
       · exact Or.inl h)

/-- C4: incoming idempotency. For a request addressed to this bank
whose transactionId is already stored, the handler returns the stored
status and leaves the state untouched; and after a request has been
accepted and processed, submitting it again returns COMPLETED with no
further state change, so the destination account is credited exactly
once across the two submissions. -/
theorem claim_C4_incoming_idempotent (env : Env) (s s1 : BankState)
    (r : IncomingRequest) (htb : (r.toBank == env.bankCode) = true) :
    (∀ t, findTransaction s r.transactionId = some t →
      incomingTransfer env s r =
        (.alreadyProcessed r.transactionId t.status, s)) ∧
    (incomingTransfer env s r = (.processed r.transactionId, s1) →
      incomingTransfer env s1 r =
        (.alreadyProcessed r.transactionId .COMPLETED, s1) ∧
      (∀ a, findAccount s r.toAccount = some a →
        findAccount s1 r.toAccount =
          some { a with balance := a.balance + r.amount })) := by
  constructor
  · intro t ht
    simp [incomingTransfer, htb, ht]
  · intro h
    obtain ⟨-, htb2, hdup, hsig, recipient, hrec, hcur, hpos, -, hs1⟩ :=
      incomingTransfer_processed_inv env s s1 r r.transactionId h
    constructor
    · have hfind : findTransaction s1 r.transactionId =
          some (markCompleted (incomingRecord r recipient)) := by
        rw [hs1]
        simp [findTransaction, List.find?_cons, incomingRecord,
          markCompleted, updateStatus]
      simp [incomingTransfer, htb2, hfind, markCompleted, updateStatus]
    · intro a ha
      have haq : recipient = a := by
        rw [ha] at hrec
        exact (Option.some.inj hrec).symm
      subst haq
      rw [hs1]
      show (updateAccount s.accounts _).find?
        (fun x => x.accountNumber == r.toAccount) = _
      exact find_updateAccount s.accounts _ r.toAccount recipient hrec rfl

/-- Witness for C4 at a concrete input: after the incoming request rI
is accepted (crediting accB with 25), resubmitting the identical
request returns the stored COMPLETED status and changes nothing. -/
theorem claim_C4_witness :
    incomingTransfer envC sI1 rI =
      (.alreadyProcessed "tx-9" .COMPLETED, sI1) :=
  (((claim_C4_incoming_idempotent envC sC sI1 rI rfl).2 (by
    simp [incomingTransfer, findTransaction, findAccount, verifySignature,
      jwtVerify, incomingPayload, credit, updateAccount, markCompleted,
      updateStatus, incomingRecord, envC, sC, accA, accB, rI, pI, sI1]
    decide))).1

/-- C5 counterexample: the claim states that every accepted incoming
request has the destination credited and the record persisted COMPLETED
as one accepted unit. The incoming route has no request validator, so
the transaction schema bounds are first checked by mongoose at
markCompleted's save — after the credit has been persisted. The validly
signed request rBig for 2,000,000 (above the schema maximum of
1,000,000) passes the destination, duplicate, signature, account and
currency checks, is therefore accepted, credits accB with 2,000,000,
and then the record save rejects: the handler answers 500 with the
credit persisted and no record stored — the accepted unit splits. -/
theorem claim_C5_counterexample :
    incomingTransfer envC sC rBig = (.serverError "tx-big", sBig) ∧
    sBig.transactions = [] ∧ sBig ≠ sC := by
  refine ⟨?_, rfl, ?_⟩
  · simp [incomingTransfer, findTransaction, findAccount, verifySignature,
      jwtVerify, incomingPayload, credit, updateAccount, markCompleted,
      updateStatus, incomingRecord, transactionDocInvalid, envC, sC, sBig,
      rBig, rI, pI, accA, accB]
    norm_num [mkRat]
    decide
  · simp only [sBig, sC, ne_eq, BankState.mk.injEq, List.cons.injEq,
      Account.mk.injEq, accA, accB]
    intro h
    norm_num at h

/-- C5 amended: an incoming request rejected by the handler checks
(destination bank not this bank, duplicate transactionId, invalid
signature, unknown destination account, currency mismatch) leaves the
persisted state exactly as it was — no record, no balance change. An
accepted request whose record passes the transaction schema save-time
validation is credited and recorded COMPLETED as one unit. An accepted
request whose record fails that validation — reachable because the
incoming route has no request validator — has the credit persisted but
no record stored, answered with the 500 path. In every case each record
the route adds has status COMPLETED, so no FAILED incoming record ever
exists. -/
theorem claim_C5_incoming_units (env : Env) (s : BankState)
    (r : IncomingRequest) :
    (((incomingTransfer env s r).1 = .invalidDestination r.transactionId ∨
      (∃ st, (incomingTransfer env s r).1 =
        .alreadyProcessed r.transactionId st) ∨
      (incomingTransfer env s r).1 = .invalidSignature r.transactionId ∨
      (incomingTransfer env s r).1 = .accountNotFound r.transactionId ∨
      (incomingTransfer env s r).1 = .currencyMismatch r.transactionId) →
      (incomingTransfer env s r).2 = s) ∧
    (∀ recipient, findAccount s r.toAccount = some recipient →
      (incomingTransfer env s r).1 = .processed r.transactionId →
      (incomingTransfer env s r).2 =
        { accounts := updateAccount s.accounts
            { recipient with balance := recipient.balance + r.amount },
          transactions :=
            markCompleted (incomingRecord r recipient) :: s.transactions } ∧
      (markCompleted (incomingRecord r recipient)).status = .COMPLETED) ∧
    (∀ recipient, findAccount s r.toAccount = some recipient →
      (r.toBank == env.bankCode) = true →
      findTransaction s r.transactionId = none →
      verifySignature env (incomingPayload r) r.signature r.fromBank = true →
      recipient.currency = r.currency →
      0 < r.amount →
      transactionDocInvalid (markCompleted (incomingRecord r recipient)) =
        true →
      incomingTransfer env s r = (.serverError r.transactionId,
        { s with
          accounts :=
            updateAccount s.accounts
              ({ recipient with
                 balance := recipient.balance + r.amount }) })) ∧
    (∀ t ∈ (incomingTransfer env s r).2.transactions,
      t ∈ s.transactions ∨ t.status = .COMPLETED) := by
  refine ⟨?_, ?_, ?_, incomingTransfer_record_completed env s r⟩
  · intro hrej
    rcases incomingTransfer_state_or env s r with hp | hp | hp
    · rcases hrej with h | ⟨st, h⟩ | h | h | h <;> rw [h] at hp <;>
        simp at hp
    · rcases hrej with h | ⟨st, h⟩ | h | h | h <;> rw [h] at hp <;>
        simp at hp
    · exact hp
  · intro recipient hrec hproc
    have hpair : incomingTransfer env s r =
        (.processed r.transactionId, (incomingTransfer env s r).2) := by
      rw [← hproc]
    obtain ⟨-, -, -, -, rec2, hrec2, -, -, -, hs1⟩ :=
      incomingTransfer_processed_inv env s _ r r.transactionId hpair
    have hq : rec2 = recipient := by
      rw [hrec] at hrec2
      exact (Option.some.inj hrec2).symm
    subst hq
    exact ⟨hs1, rfl⟩
  · intro recipient hrec htb hdup hsig hcur hpos hinv
    have hcredit := credit_eq_ok recipient r.amount hpos
    have hc2 : ¬ (recipient.currency ≠ r.currency) := by simp [hcur]
    simp [incomingTransfer, htb, hdup, hsig, hrec, hc2, hcredit, hinv]

/-- Witness for the amended C5 at concrete inputs: the incoming request
with a tampered signature is rejected and the state is exactly
unchanged. -/
theorem claim_C5_witness : (incomingTransfer envC sC rIbad).2 = sC :=
  (claim_C5_incoming_units envC sC rIbad).1 (Or.inr (Or.inr (Or.inl (by
    simp [incomingTransfer, findTransaction, findAccount, verifySignature,
      jwtVerify, incomingPayload, envC, sC, rIbad, rI, pI]))))

/-- C2 counterexample: the claim states that when any step of a
validated internal transfer fails, no balance change and no record is
persisted (state unchanged on error). In the code the debit, credit and
markCompleted saves are sequential with no surrounding transaction: in
the concrete run below the debit save succeeds and the credit save then
rejects; the handler answers with the error path, yet the persisted
state has the sender already debited by 50 — the state did change on
error, refuting the claim. -/
theorem claim_C2_counterexample :
    internalTransfer envC ⟨true, false, true⟩ "t1" sC rC =
      (.serverError, sC2) ∧ sC2 ≠ sC := by
  constructor
  · simp [internalTransfer, internalRequestInvalid, findAccount,
      hasSufficientFunds, debit, credit, updateAccount, internalRecord,
      markCompleted, updateStatus, envC, sC, sC2, rC, accA, accB]
    norm_num
    decide
  · simp only [sC2, sC, ne_eq, BankState.mk.injEq, List.cons.injEq,
      Account.mk.injEq, accA, accB]
    intro h
    norm_num at h

/-- C2 amended: a validated internal transfer executes debit, credit
and the COMPLETED record save sequentially, each as its own persisted
write with no surrounding transaction. When all three saves succeed the
sender is debited, the recipient credited and exactly one COMPLETED
record is stored. When a save fails the steps already persisted remain:
a failed debit save leaves the state unchanged, a failed credit save
leaves the sender already debited, and a failed record save leaves both
balance changes with no record — there is no rollback on error. -/
theorem claim_C2_internal_sequential (env : Env) (f : FaultSpec)
    (newId : String) (s : BankState) (r : InternalRequest)
    (sender recipient : Account)
    (hv : internalRequestInvalid r = false)
    (hsender : findAccount s r.fromAccount = some sender)
    (huser : sender.user = r.userId)
    (hrec : findAccount s r.toAccount = some recipient)
    (hcur : sender.currency = recipient.currency)
    (hfunds : hasSufficientFunds sender r.amount = true) :
    (f.debitSaveOk = false →
      internalTransfer env f newId s r = (.serverError, s)) ∧
    (f.debitSaveOk = true → f.creditSaveOk = false →
      internalTransfer env f newId s r = (.serverError,
        { s with
          accounts :=
            updateAccount s.accounts
              ({ sender with balance := sender.balance - r.amount }) })) ∧
    (f.debitSaveOk = true → f.creditSaveOk = true → f.txSaveOk = false →
      internalTransfer env f newId s r = (.serverError,
        { s with
          accounts :=
            updateAccount
              (updateAccount s.accounts
                ({ sender with balance := sender.balance - r.amount }))
              ({ recipient with balance := recipient.balance + r.amount }) })) ∧
    (f.debitSaveOk = true → f.creditSaveOk = true → f.txSaveOk = true →
      internalTransfer env f newId s r =
        (.completed (markCompleted (internalRecord env newId r sender recipient)),
         { accounts :=
             updateAccount
               (updateAccount s.accounts
                 ({ sender with balance := sender.balance - r.amount }))
               ({ recipient with balance := recipient.balance + r.amount }),
           transactions :=
             markCompleted (internalRecord env newId r sender recipient) ::
               s.transactions })) := by
  have hpos : 0 < r.amount := by
    have h2 : mkRat 1 100 ≤ r.amount := by
      by_contra hc
      push_neg at hc
      simp [internalRequestInvalid, hc] at hv
    calc (0 : ℚ) < mkRat 1 100 := by norm_num [mkRat]
      _ ≤ r.amount := h2
  have hle : r.amount ≤ sender.balance := (hasSufficientFunds_iff _ _).mp hfunds
  have hdebit := debit_eq_ok sender r.amount hpos hle
  have hcredit := credit_eq_ok recipient r.amount hpos
  refine ⟨?_, ?_, ?_, ?_⟩
  · intro h1
    simp [internalTransfer, hv, hsender, huser, hrec, hcur, hfunds,
      hdebit, h1]
  · intro h1 h2
    simp [internalTransfer, hv, hsender, huser, hrec, hcur, hfunds,
      hdebit, hcredit, h1, h2]
  · intro h1 h2 h3
    simp [internalTransfer, hv, hsender, huser, hrec, hcur, hfunds,
      hdebit, hcredit, h1, h2, h3]
  · intro h1 h2 h3
    simp [internalTransfer, hv, hsender, huser, hrec, hcur, hfunds,
      hdebit, hcredit, h1, h2, h3]

/-- Witness for the amended C2 at a concrete input: with all saves
succeeding, the internal transfer of 50 debits accA, credits accB and
stores exactly one COMPLETED record. -/
theorem claim_C2_witness :
    internalTransfer envC ⟨true, true, true⟩ "t1" sC rC =
      (.completed (markCompleted (internalRecord envC "t1" rC accA accB)),
       { accounts :=
           updateAccount
             (updateAccount sC.accounts
               ({ accA with balance := accA.balance - rC.amount }))
             ({ accB with balance := accB.balance + rC.amount }),
         transactions :=
           markCompleted (internalRecord envC "t1" rC accA accB) ::
             sC.transactions }) :=
  (claim_C2_internal_sequential envC ⟨true, true, true⟩ "t1" sC rC accA accB
    (by decide) rfl rfl rfl rfl (by decide)).2.2.2 rfl rfl rfl

/-! ## Characterization of the external route -/

theorem externalRequest_amount_pos (r : ExternalRequest)
    (hv : externalRequestInvalid r = false) : 0 < r.amount := by
  have h2 : mkRat 1 100 ≤ r.amount := by
    by_contra hc
    push_neg at hc
    simp [externalRequestInvalid, hc] at hv
  calc (0 : ℚ) < mkRat 1 100 := by norm_num [mkRat]
    _ ≤ r.amount := h2

/-- C3: external outgoing compensation. Under the conditions that let a
validated external transfer reach the relay (request valid, foreign
destination, sender found and owned, currency match, sufficient funds,
private key present), a relay rejection `(c, m)` forwards that error to
the caller, restores the sender document to exactly its pre-debit value
(the debited amount is credited back), and leaves the stored record
FAILED carrying the relay-supplied code and message; a transport
failure compensates identically and records the fixed
CENTRAL_BANK_ERROR code while the handler rethrows; in both cases the
trace places the credit-back event strictly before the FAILED status
write. -/
theorem claim_C3_external_compensation (env : Env) (newId ts : String)
    (s : BankState) (r : ExternalRequest) (sender : Account) (k : String)
    (hv : externalRequestInvalid r = false)
    (hb : (r.toBank == env.bankCode) = false)
    (hsender : findAccount s r.fromAccount = some sender)
    (huser : sender.user = r.userId)
    (hcur : sender.currency = r.currency)
    (hfunds : hasSufficientFunds sender r.amount = true)
    (hkey : env.privateKey = some k) :
    (∀ c m,
      (externalTransfer env newId ts (.rejected c m) s r).1 =
        .relayError c m ∧
      findAccount (externalTransfer env newId ts (.rejected c m) s r).2.1
        r.fromAccount = some sender ∧
      (∃ t, findTransaction
          (externalTransfer env newId ts (.rejected c m) s r).2.1 newId =
            some t ∧
        t.status = .FAILED ∧ t.errorCode = some c ∧
        t.errorMessage = some m) ∧
      eventBefore isCreditEvent isFailedSave
        (externalTransfer env newId ts (.rejected c m) s r).2.2) ∧
    ((externalTransfer env newId ts .transportError s r).1 = .serverError ∧
      findAccount (externalTransfer env newId ts .transportError s r).2.1
        r.fromAccount = some sender ∧
      (∃ t, findTransaction
          (externalTransfer env newId ts .transportError s r).2.1 newId =
            some t ∧
        t.status = .FAILED ∧ t.errorCode = some "CENTRAL_BANK_ERROR") ∧
      eventBefore isCreditEvent isFailedSave
        (externalTransfer env newId ts .transportError s r).2.2) := by
  have hpos : 0 < r.amount := externalRequest_amount_pos r hv
  have hle : r.amount ≤ sender.balance := (hasSufficientFunds_iff _ _).mp hfunds
  have hsig : signTransaction env (externalPayload env newId ts r sender) =
      .ok { claims := externalPayload env newId ts r sender, key := k } := by
    simp [signTransaction, hkey]
  have hdebit := debit_eq_ok sender r.amount hpos hle
  have hcredit := credit_eq_ok
    ({ sender with balance := sender.balance - r.amount }) r.amount hpos
  have hu2 : ¬ (sender.user ≠ r.userId) := by simp [huser]
  have hc2 : ¬ (sender.currency ≠ r.currency) := by simp [hcur]
  have hback : ({ { sender with balance := sender.balance - r.amount } with
      balance := ({ sender with balance := sender.balance - r.amount }).balance
        + r.amount } : Account) = sender := by
    cases sender
    simp
  have h1 := find_updateAccount s.accounts
    ({ sender with balance := sender.balance - r.amount })
    r.fromAccount sender hsender rfl
  have h2 := find_updateAccount
    (updateAccount s.accounts
      ({ sender with balance := sender.balance - r.amount }))
    ({ { sender with balance := sender.balance - r.amount } with
      balance := ({ sender with balance := sender.balance - r.amount }).balance
        + r.amount })
    r.fromAccount ({ sender with balance := sender.balance - r.amount }) h1 rfl
  constructor
  · intro c m
    refine ⟨?_, ?_, ?_, ?_⟩
    · simp only [externalTransfer, hv, hb, hsender, hu2, hc2, hfunds,
        hsig, hdebit, hcredit, Bool.false_eq_true, if_false, ite_false,
        not_false_eq_true, ite_true, Bool.not_eq_true, not_true]
    · simp only [externalTransfer, hv, hb, hsender, hu2, hc2, hfunds,
        hsig, hdebit, hcredit, Bool.false_eq_true, if_false, ite_false,
        not_false_eq_true, ite_true, Bool.not_eq_true, not_true]
      exact h2.trans (by rw [hback])
    · simp only [externalTransfer, hv, hb, hsender, hu2, hc2, hfunds,
        hsig, hdebit, hcredit, Bool.false_eq_true, if_false, ite_false,
        not_false_eq_true, ite_true, Bool.not_eq_true, not_true]
      refine ⟨markFailed (markInProgress
        { externalRecord env newId r sender with
          signature :=
            some
              ({ claims := externalPayload env newId ts r sender,
                 key := k }) }) c m, ?_, rfl, rfl, rfl⟩
      simp [findTransaction, updateTransaction, List.find?_cons, markFailed,
        markInProgress, updateStatus, externalRecord]
    · simp only [externalTransfer, hv, hb, hsender, hu2, hc2, hfunds,
        hsig, hdebit, hcredit, Bool.false_eq_true, if_false, ite_false,
        not_false_eq_true, ite_true, Bool.not_eq_true, not_true]
      simp [eventBefore, isCreditEvent, isFailedSave, List.findIdx_cons,
        List.filter]
  · refine ⟨?_, ?_, ?_, ?_⟩
    · simp only [externalTransfer, hv, hb, hsender, hu2, hc2, hfunds,
        hsig, hdebit, hcredit, Bool.false_eq_true, if_false, ite_false,
        not_false_eq_true, ite_true, Bool.not_eq_true, not_true]
    · simp only [externalTransfer, hv, hb, hsender, hu2, hc2, hfunds,
        hsig, hdebit, hcredit, Bool.false_eq_true, if_false, ite_false,
        not_false_eq_true, ite_true, Bool.not_eq_true, not_true]
      exact h2.trans (by rw [hback])
    · simp only [externalTransfer, hv, hb, hsender, hu2, hc2, hfunds,
        hsig, hdebit, hcredit, Bool.false_eq_true, if_false, ite_false,
        not_false_eq_true, ite_true, Bool.not_eq_true, not_true]
      refine ⟨markFailed (markInProgress
        { externalRecord env newId r sender with
          signature :=
            some
              ({ claims := externalPayload env newId ts r sender,
                 key := k }) }) "CENTRAL_BANK_ERROR"
        "Failed to communicate with central bank", ?_, rfl, rfl⟩
      simp [findTransaction, updateTransaction, List.find?_cons, markFailed,
        markInProgress, updateStatus, externalRecord]
    · simp only [externalTransfer, hv, hb, hsender, hu2, hc2, hfunds,
        hsig, hdebit, hcredit, Bool.false_eq_true, if_false, ite_false,
        not_false_eq_true, ite_true, Bool.not_eq_true, not_true]
      simp [eventBefore, isCreditEvent, isFailedSave, List.findIdx_cons,
        List.filter]

/-- Witness for C3 at a concrete input: the external transfer of 50
from accA rejected by the relay with INSUFFICIENT_FUNDS surfaces that
error and leaves accA at its original balance 100. -/
theorem claim_C3_witness :
    (externalTransfer envC "t1" "TS"
      (.rejected "INSUFFICIENT_FUNDS" "Insufficient funds") sC rE).1 =
        .relayError "INSUFFICIENT_FUNDS" "Insufficient funds" ∧
    findAccount (externalTransfer envC "t1" "TS"
      (.rejected "INSUFFICIENT_FUNDS" "Insufficient funds") sC rE).2.1
      "OVE-11111111" = some accA := by
  have h := (claim_C3_external_compensation envC "t1" "TS" sC rE accA
    "OVEKEY" (by decide) rfl rfl rfl rfl (by decide) rfl).1
    "INSUFFICIENT_FUNDS" "Insufficient funds"
  exact ⟨h.1, h.2.1⟩

/-- C8 counterexample: the claim orders the steps as persist PENDING,
then debit, then sign and transition to IN_PROGRESS, then dispatch. In
the code the debit happens after the signing and the IN_PROGRESS save:
the concrete run below produces the trace PENDING save, IN_PROGRESS
save, debit, dispatch, in which the debit does not precede the
IN_PROGRESS write — the claimed order is false. -/
theorem claim_C8_counterexample :
    (externalTransfer envC "t1" "TS" .ok sC rE).2.2 =
      [.savedTx .PENDING, .savedTx .IN_PROGRESS,
       .didDebit "OVE-11111111" 50, .dispatched] ∧
    ¬ eventBefore isDebitEvent isInProgressSave
        (externalTransfer envC "t1" "TS" .ok sC rE).2.2 := by
  have htr : (externalTransfer envC "t1" "TS" .ok sC rE).2.2 =
      [.savedTx .PENDING, .savedTx .IN_PROGRESS,
       .didDebit "OVE-11111111" 50, .dispatched] := by
    simp [externalTransfer, externalRequestInvalid, findAccount,
      hasSufficientFunds, debit, credit, signTransaction, externalPayload,
      externalRecord, markInProgress, updateStatus, updateTransaction,
      updateAccount, envC, sC, rE, accA, accB]
    decide
  refine ⟨htr, ?_⟩
  rw [htr]
  simp [eventBefore, isDebitEvent, isInProgressSave, List.findIdx_cons]

/-- C8 amended: for every validated external transfer that reaches the
relay, the persisted steps occur in the order: save the transaction
PENDING, then build and sign the canonical payload and save the
IN_PROGRESS transition, then debit the sender ledger, then dispatch to
the relay — the debit follows the signing step rather than preceding
it. The first four trace events are identical for every relay outcome. -/
theorem claim_C8_external_step_order (env : Env) (newId ts : String)
    (relay : RelayOutcome) (s : BankState) (r : ExternalRequest)
    (sender : Account) (k : String)
    (hv : externalRequestInvalid r = false)
    (hb : (r.toBank == env.bankCode) = false)
    (hsender : findAccount s r.fromAccount = some sender)
    (huser : sender.user = r.userId)
    (hcur : sender.currency = r.currency)
    (hfunds : hasSufficientFunds sender r.amount = true)
    (hkey : env.privateKey = some k) :
    (externalTransfer env newId ts relay s r).2.2.take 4 =
      [.savedTx .PENDING, .savedTx .IN_PROGRESS,
       .didDebit sender.accountNumber r.amount, .dispatched] := by
  have hpos : 0 < r.amount := externalRequest_amount_pos r hv
  have hle : r.amount ≤ sender.balance := (hasSufficientFunds_iff _ _).mp hfunds
  have hsig : signTransaction env (externalPayload env newId ts r sender) =
      .ok { claims := externalPayload env newId ts r sender, key := k } := by
    simp [signTransaction, hkey]
  have hdebit := debit_eq_ok sender r.amount hpos hle
  have hcredit := credit_eq_ok
    ({ sender with balance := sender.balance - r.amount }) r.amount hpos
  have hu2 : ¬ (sender.user ≠ r.userId) := by simp [huser]
  have hc2 : ¬ (sender.currency ≠ r.currency) := by simp [hcur]
  cases relay with
  | ok =>
    simp only [externalTransfer, hv, hb, hsender, hu2, hc2, hfunds,
      hsig, hdebit, hcredit, Bool.false_eq_true, if_false, ite_false,
      not_false_eq_true, ite_true, Bool.not_eq_true, not_true]
    simp [List.take]
  | rejected c m =>
    simp only [externalTransfer, hv, hb, hsender, hu2, hc2, hfunds,
      hsig, hdebit, hcredit, Bool.false_eq_true, if_false, ite_false,
      not_false_eq_true, ite_true, Bool.not_eq_true, not_true]
    simp [List.take]
  | transportError =>
    simp only [externalTransfer, hv, hb, hsender, hu2, hc2, hfunds,
      hsig, hdebit, hcredit, Bool.false_eq_true, if_false, ite_false,
      not_false_eq_true, ite_true, Bool.not_eq_true, not_true]
    simp [List.take]

/-- Witness for the amended C8 at a concrete input: the relay-rejected
run of the concrete external transfer starts with exactly the four
events PENDING save, IN_PROGRESS save, debit, dispatch. -/
theorem claim_C8_witness :
    (externalTransfer envC "t1" "TS" (.rejected "X" "Y") sC rE).2.2.take 4 =
      [.savedTx .PENDING, .savedTx .IN_PROGRESS,
       .didDebit "OVE-11111111" 50, .dispatched] :=
  claim_C8_external_step_order envC "t1" "TS" (.rejected "X" "Y") sC rE
    accA "OVEKEY" (by decide) rfl rfl rfl rfl (by decide) rfl

/-! ## Independence from the isActive flag -/

theorem setActive_accountNumber (b : Bool) (a : Account) :
    (setActive b a).accountNumber = a.accountNumber := rfl

theorem setActive_user (b : Bool) (a : Account) :
    (setActive b a).user = a.user := rfl

theorem setActive_currency (b : Bool) (a : Account) :
    (setActive b a).currency = a.currency := rfl

theorem setActive_balance (b : Bool) (a : Account) :
    (setActive b a).balance = a.balance := rfl

theorem find_map_setActive (l : List Account) (n : String) (b : Bool) :
    (l.map (setActive b)).find? (fun a => a.accountNumber == n) =
      (l.find? (fun a => a.accountNumber == n)).map (setActive b) := by
  induction l with
  | nil => simp
  | cons y ys ih =>
    simp only [List.map_cons, List.find?_cons, setActive_accountNumber]
    cases hy : y.accountNumber == n
    · simpa [hy] using ih
    · simp [hy]

theorem updateAccount_map_setActive (l : List Account) (doc : Account)
    (b : Bool) :
    updateAccount (l.map (setActive b)) (setActive b doc) =
      (updateAccount l doc).map (setActive b) := by
  unfold updateAccount
  rw [List.map_map, List.map_map]
  congr 1
  funext a
  by_cases h : (a.accountNumber == doc.accountNumber) = true
  · simp [Function.comp, setActive, h]
  · simp [Function.comp, setActive, h]

theorem hasSufficientFunds_setActive (b : Bool) (a : Account) (amt : ℚ) :
    hasSufficientFunds (setActive b a) amt = hasSufficientFunds a amt := rfl

theorem debit_setActive (b : Bool) (a : Account) (amt : ℚ) :
    debit (setActive b a) amt = (debit a amt).map (setActive b) := by
  unfold debit
  rw [hasSufficientFunds_setActive]
  split_ifs <;> simp [Except.map, setActive]

theorem credit_setActive (b : Bool) (a : Account) (amt : ℚ) :
    credit (setActive b a) amt = (credit a amt).map (setActive b) := by
  unfold credit
  split_ifs <;> simp [Except.map, setActive]

theorem internalTransfer_setActive (env : Env) (f : FaultSpec)
    (newId : String) (s : BankState) (r : InternalRequest) (b : Bool) :
    internalTransfer env f newId (mapActive b s) r =
      ((internalTransfer env f newId s r).1,
       mapActive b (internalTransfer env f newId s r).2) := by
  have hfrom : findAccount (mapActive b s) r.fromAccount =
      (findAccount s r.fromAccount).map (setActive b) :=
    find_map_setActive s.accounts r.fromAccount b
  have hto : findAccount (mapActive b s) r.toAccount =
      (findAccount s r.toAccount).map (setActive b) :=
    find_map_setActive s.accounts r.toAccount b
  unfold internalTransfer
  rw [hfrom, hto]
  by_cases h0 : internalRequestInvalid r = true
  · simp only [h0, ne_eq, not_false_eq_true, not_true, Bool.false_eq_true, Bool.true_eq_false, eq_self_iff_true, if_true, if_false]
  simp only [h0, ne_eq, not_false_eq_true, not_true, Bool.false_eq_true, Bool.true_eq_false, eq_self_iff_true, if_true, if_false]
  cases hfa : findAccount s r.fromAccount with
  | none => rfl
  | some sender =>
    simp only [Option.map_some', setActive_user]
    by_cases h1 : sender.user ≠ r.userId
    · simp only [h1, ne_eq, not_false_eq_true, not_true, Bool.false_eq_true, Bool.true_eq_false, eq_self_iff_true, if_true, if_false]
    simp only [h1, ne_eq, not_false_eq_true, not_true, Bool.false_eq_true, Bool.true_eq_false, eq_self_iff_true, if_true, if_false]
    cases hta : findAccount s r.toAccount with
    | none => rfl
    | some recipient =>
      simp only [Option.map_some', setActive_currency, setActive_accountNumber,
        hasSufficientFunds_setActive, debit_setActive, internalRecord]
      by_cases h2 : sender.currency ≠ recipient.currency
      · simp only [h2, ne_eq, not_false_eq_true, not_true, Bool.false_eq_true, Bool.true_eq_false, eq_self_iff_true, if_true, if_false]
      simp only [h2, ne_eq, not_false_eq_true, not_true, Bool.false_eq_true, Bool.true_eq_false, eq_self_iff_true, if_true, if_false]
      by_cases h3 : ¬ hasSufficientFunds sender r.amount = true
      · simp only [h3, ne_eq, not_false_eq_true, not_true, Bool.false_eq_true, Bool.true_eq_false, eq_self_iff_true, if_true, if_false]
      simp only [h3, ne_eq, not_false_eq_true, not_true, Bool.false_eq_true, Bool.true_eq_false, eq_self_iff_true, if_true, if_false]
      cases hd : debit sender r.amount with
      | error e => rfl
      | ok senderDoc =>
        simp only [Except.map, credit_setActive]
        by_cases h4 : ¬ f.debitSaveOk = true
        · simp only [h4, ne_eq, not_false_eq_true, not_true, Bool.false_eq_true, Bool.true_eq_false, eq_self_iff_true, if_true, if_false]
        simp only [h4, ne_eq, not_false_eq_true, not_true, Bool.false_eq_true, Bool.true_eq_false, eq_self_iff_true, if_true, if_false]
        cases hc : credit recipient r.amount with
        | error e =>
          simp [mapActive, updateAccount_map_setActive]
        | ok recipientDoc =>
          simp only [Except.map]
          by_cases h5 : ¬ f.creditSaveOk = true
          · simp only [h5, ne_eq, not_false_eq_true, not_true, Bool.false_eq_true, Bool.true_eq_false, eq_self_iff_true, if_true, if_false]
            simp [mapActive, updateAccount_map_setActive]
          simp only [h5, ne_eq, not_false_eq_true, not_true, Bool.false_eq_true, Bool.true_eq_false, eq_self_iff_true, if_true, if_false]
          by_cases h6 : ¬ f.txSaveOk = true
          · simp only [h6, ne_eq, not_false_eq_true, not_true, Bool.false_eq_true, Bool.true_eq_false, eq_self_iff_true, if_true, if_false]
            simp only [mapActive, updateAccount_map_setActive]
          · simp only [h6, ne_eq, not_false_eq_true, not_true, Bool.false_eq_true, Bool.true_eq_false, eq_self_iff_true, if_true, if_false]
            simp only [mapActive, updateAccount_map_setActive]

theorem externalPayload_setActive (env : Env) (newId ts : String)
    (r : ExternalRequest) (b : Bool) (sender : Account) :
    externalPayload env newId ts r (setActive b sender) =
      externalPayload env newId ts r sender := rfl

theorem externalRecord_setActive (env : Env) (newId : String)
    (r : ExternalRequest) (b : Bool) (sender : Account) :
    externalRecord env newId r (setActive b sender) =
      externalRecord env newId r sender := rfl

theorem externalTransfer_setActive (env : Env) (newId ts : String)
    (relay : RelayOutcome) (s : BankState) (r : ExternalRequest) (b : Bool) :
    externalTransfer env newId ts relay (mapActive b s) r =
      ((externalTransfer env newId ts relay s r).1,
       mapActive b (externalTransfer env newId ts relay s r).2.1,
       (externalTransfer env newId ts relay s r).2.2) := by
  have hfrom : findAccount (mapActive b s) r.fromAccount =
      (findAccount s r.fromAccount).map (setActive b) :=
    find_map_setActive s.accounts r.fromAccount b
  unfold externalTransfer
  rw [hfrom]
  by_cases h0 : externalRequestInvalid r = true
  · simp only [h0, if_true]
  simp only [h0, ne_eq, not_false_eq_true, not_true, Bool.false_eq_true,
    Bool.true_eq_false, eq_self_iff_true, if_true, if_false]
  by_cases hB : (r.toBank == env.bankCode) = true
  · simp only [hB, if_true]
  simp only [hB, ne_eq, not_false_eq_true, not_true, Bool.false_eq_true,
    Bool.true_eq_false, eq_self_iff_true, if_true, if_false]
  cases hfa : findAccount s r.fromAccount with
  | none => rfl
  | some sender =>
    simp only [Option.map_some', setActive_user, setActive_currency,
      setActive_accountNumber, externalPayload_setActive,
      externalRecord_setActive, hasSufficientFunds_setActive,
      debit_setActive]
    by_cases h1 : sender.user ≠ r.userId
    · simp only [h1, ne_eq, not_false_eq_true, not_true, Bool.false_eq_true,
        Bool.true_eq_false, eq_self_iff_true, if_true, if_false]
    simp only [h1, ne_eq, not_false_eq_true, not_true, Bool.false_eq_true,
      Bool.true_eq_false, eq_self_iff_true, if_true, if_false]
    by_cases h2 : sender.currency ≠ r.currency
    · simp only [h2, ne_eq, not_false_eq_true, not_true, Bool.false_eq_true,
        Bool.true_eq_false, eq_self_iff_true, if_true, if_false]
    simp only [h2, ne_eq, not_false_eq_true, not_true, Bool.false_eq_true,
      Bool.true_eq_false, eq_self_iff_true, if_true, if_false]
    by_cases h3 : ¬ hasSufficientFunds sender r.amount = true
    · simp only [h3, ne_eq, not_false_eq_true, not_true, Bool.false_eq_true,
        Bool.true_eq_false, eq_self_iff_true, if_true, if_false]
    simp only [h3, ne_eq, not_false_eq_true, not_true, Bool.false_eq_true,
      Bool.true_eq_false, eq_self_iff_true, if_true, if_false]
    cases hsig : signTransaction env (externalPayload env newId ts r sender) with
    | error e => simp [mapActive]
    | ok sig =>
      simp only [Except.map]
      cases hd : debit sender r.amount with
      | error e => simp [mapActive]
      | ok senderDoc =>
        simp only [Except.map, credit_setActive]
        cases relay with
        | ok =>
          simp [mapActive, updateAccount_map_setActive]
        | rejected c m =>
          cases hc : credit senderDoc r.amount with
          | error e => simp [mapActive, updateAccount_map_setActive]
          | ok senderBack =>
            simp only [Except.map]
            simp [mapActive, updateAccount_map_setActive]
        | transportError =>
          cases hc : credit senderDoc r.amount with
          | error e => simp [mapActive, updateAccount_map_setActive]
          | ok senderBack =>
            simp only [Except.map]
            simp [mapActive, updateAccount_map_setActive]

theorem incomingRecord_setActive (r : IncomingRequest) (b : Bool)
    (recipient : Account) :
    incomingRecord r (setActive b recipient) = incomingRecord r recipient :=
  rfl

theorem incomingTransfer_setActive (env : Env) (s : BankState)
    (r : IncomingRequest) (b : Bool) :
    incomingTransfer env (mapActive b s) r =
      ((incomingTransfer env s r).1,
       mapActive b (incomingTransfer env s r).2) := by
  have hto : findAccount (mapActive b s) r.toAccount =
      (findAccount s r.toAccount).map (setActive b) :=
    find_map_setActive s.accounts r.toAccount b
  have htx : findTransaction (mapActive b s) r.transactionId =
      findTransaction s r.transactionId := rfl
  unfold incomingTransfer
  rw [hto, htx]
  by_cases h0 : (r.toBank == env.bankCode) = true
  swap
  · simp only [h0, ne_eq, not_false_eq_true, not_true, Bool.false_eq_true,
      Bool.true_eq_false, eq_self_iff_true, if_true, if_false]
  simp only [h0, ne_eq, not_false_eq_true, not_true, Bool.false_eq_true,
    Bool.true_eq_false, eq_self_iff_true, if_true, if_false]
  cases ht : findTransaction s r.transactionId with
  | some t => rfl
  | none =>
    by_cases h1 : verifySignature env (incomingPayload r) r.signature
        r.fromBank = true
    swap
    · simp only [h1, ne_eq, not_false_eq_true, not_true, Bool.false_eq_true,
        Bool.true_eq_false, eq_self_iff_true, if_true, if_false]
    simp only [h1, ne_eq, not_false_eq_true, not_true, Bool.false_eq_true,
      Bool.true_eq_false, eq_self_iff_true, if_true, if_false]
    cases hra : findAccount s r.toAccount with
    | none => rfl
    | some recipient =>
      simp only [Option.map_some', setActive_currency, setActive_user,
        incomingRecord_setActive, credit_setActive]
      by_cases h2 : recipient.currency ≠ r.currency
      · simp only [h2, ne_eq, not_false_eq_true, not_true, Bool.false_eq_true,
          Bool.true_eq_false, eq_self_iff_true, if_true, if_false]
      simp only [h2, ne_eq, not_false_eq_true, not_true, Bool.false_eq_true,
        Bool.true_eq_false, eq_self_iff_true, if_true, if_false]
      cases hc : credit recipient r.amount with
      | error e => rfl
      | ok recipientDoc =>
        simp only [Except.map]
        by_cases hV : transactionDocInvalid
            (markCompleted (incomingRecord r recipient)) = true
        · simp only [hV, if_true]
          simp [mapActive, updateAccount_map_setActive]
        · simp only [hV, if_false, Bool.false_eq_true]
          simp [mapActive, updateAccount_map_setActive]

/-- C10 (implicit): the settlement paths never consult the account
isActive flag. Setting the flag of every account to an arbitrary value
`b` changes nothing observable: debit and credit act identically modulo
the flag itself, and the internal, external and incoming routes return
the same response, the same trace, and a state that is the old result
state with the same flag applied — so deactivated accounts can still
send and receive funds through every transfer path. -/
theorem claim_C10_active_flag_ignored (b : Bool) (env : Env)
    (f : FaultSpec) (newId ts : String) (relay : RelayOutcome)
    (s : BankState) (a : Account) (amt : ℚ) (r1 : InternalRequest)
    (r2 : ExternalRequest) (r3 : IncomingRequest) :
    debit (setActive b a) amt = (debit a amt).map (setActive b) ∧
    credit (setActive b a) amt = (credit a amt).map (setActive b) ∧
    internalTransfer env f newId (mapActive b s) r1 =
      ((internalTransfer env f newId s r1).1,
       mapActive b (internalTransfer env f newId s r1).2) ∧
    externalTransfer env newId ts relay (mapActive b s) r2 =
      ((externalTransfer env newId ts relay s r2).1,
       mapActive b (externalTransfer env newId ts relay s r2).2.1,
       (externalTransfer env newId ts relay s r2).2.2) ∧
    incomingTransfer env (mapActive b s) r3 =
      ((incomingTransfer env s r3).1,
       mapActive b (incomingTransfer env s r3).2) :=
  ⟨debit_setActive b a amt, credit_setActive b a amt,
   internalTransfer_setActive env f newId s r1 b,
   externalTransfer_setActive env newId ts relay s r2 b,
   incomingTransfer_setActive env s r3 b⟩
